import Mathlib

/-!
Shallow embedding of the drift-detection component of the repository
(`scripts/detect_drift.py`): data model, per-feature KS bookkeeping, PSI
classification, retrain decision, report generation and the exit-code tail
of `main`, together with proofs of the specified properties.

Conventions of the embedding:
* Python floats are idealised as exact rationals (`ℚ`) except for the PSI
  log-sum itself, which is genuinely real-valued and is modelled over `ℝ`.
* A pandas DataFrame is modelled as an association list from column name to
  a list of optional rational cells (`none` is a missing value, `NaN`);
  `dropna` keeps the present cells.
* Library calls whose numerics live outside this repository
  (`scipy.stats.ks_2samp`, `pandas.Series.std`, and the
  `numpy.histogram`-based body of `calculate_psi` as seen from
  `detect_drift_psi`) are passed in as function parameters; every property
  proved below holds for all instantiations of these parameters.  The
  epsilon-corrected log-ratio sum of `calculate_psi` itself is embedded
  concretely over `ℝ` from the source.
-/

namespace DriftDetect

/-- A loaded tabular dataset: association list from column name to the
column cells, a cell being `none` when the value is missing (`NaN`). -/
abbrev Df := List (String × List (Option ℚ))

/-- Column access: `df[feature]` when the column exists. -/
def getCol (df : Df) (feature : String) : Option (List (Option ℚ)) :=
  df.lookup feature

/-- `Series.dropna`: keep the non-missing cells. -/
def dropna (cells : List (Option ℚ)) : List ℚ :=
  cells.filterMap id

/-- `Series.mean` over an idealised rational series (sum divided by
length; `0` on the empty series, which the code never takes). -/
def seriesMean (values : List ℚ) : ℚ :=
  values.sum / values.length

/-- Per-feature record produced by `detect_drift_ks_test`
(`scripts/detect_drift.py`, lines 95-107). -/
structure KSResult where
  test : String
  drift_detected : Bool
  p_value : ℚ
  ks_statistic : ℚ
  baseline_mean : ℚ
  production_mean : ℚ
  mean_shift_percent : ℚ
  baseline_std : ℚ
  production_std : ℚ
  baseline_samples : ℕ
  production_samples : ℕ
deriving DecidableEq

/-- Loop body of `detect_drift_ks_test` for one feature
(`scripts/detect_drift.py`, lines 71-107): `none` means the feature is
skipped (column absent from either dataset, or a value set empty after
`dropna`).  `ks2samp` stands for `scipy.stats.ks_2samp` (statistic,
p-value) and `stdFn` for `pandas.Series.std`; both are external library
calls, passed as parameters. -/
def ksProcessFeature (ks2samp : List ℚ → List ℚ → ℚ × ℚ)
    (stdFn : List ℚ → ℚ) (threshold : ℚ) (baseline_data production_data : Df)
    (feature : String) : Option KSResult :=
  match getCol baseline_data feature, getCol production_data feature with
  | some bcol, some pcol =>
    let baseline_values := dropna bcol
    let production_values := dropna pcol
    if baseline_values.length = 0 ∨ production_values.length = 0 then
      none
    else
      let ks := ks2samp baseline_values production_values
      let p_value := ks.2
      let baseline_mean := seriesMean baseline_values
      let production_mean := seriesMean production_values
      let mean_shift_percent :=
        if baseline_mean ≠ 0 then
          ((production_mean - baseline_mean) / baseline_mean) * 100
        else 0
      some
        { test := "KS-test"
          drift_detected := decide (p_value < threshold)
          p_value := p_value
          ks_statistic := ks.1
          baseline_mean := baseline_mean
          production_mean := production_mean
          mean_shift_percent := mean_shift_percent
          baseline_std := stdFn baseline_values
          production_std := stdFn production_values
          baseline_samples := baseline_values.length
          production_samples := production_values.length }
  | _, _ => none

/-- The `results` dictionary built by iterating a per-feature function over
the feature list, skipping the features on which it yields `none`.  Both
`detect_drift_ks_test` and `detect_drift_psi` have this shape. -/
def keyedResults {β : Type} (proc : String → Option β) (features : List String) :
    List (String × β) :=
  features.filterMap (fun f => (proc f).map (fun r => (f, r)))

/-- `detect_drift_ks_test` (`scripts/detect_drift.py`, lines 51-114). -/
def detect_drift_ks_test (ks2samp : List ℚ → List ℚ → ℚ × ℚ)
    (stdFn : List ℚ → ℚ) (baseline_data production_data : Df)
    (continuous_features : List String) (threshold : ℚ) :
    List (String × KSResult) :=
  keyedResults (ksProcessFeature ks2samp stdFn threshold baseline_data production_data)
    continuous_features

/-- Per-feature record produced by `detect_drift_psi`
(`scripts/detect_drift.py`, lines 192-197). -/
structure PsiResult where
  test : String
  psi_value : ℚ
  drift_level : String
  drift_detected : Bool
deriving DecidableEq

/-- Classification of a computed PSI value
(`scripts/detect_drift.py`, lines 184-197): thresholds `0.1` and `0.25`
for the level, strict `psi > 0.25` for the drift flag. -/
def psiEntry (psi : ℚ) : PsiResult :=
  let drift_level :=
    if psi < 0.1 then "no_drift"
    else if psi < 0.25 then "moderate_drift"
    else "significant_drift"
  { test := "PSI"
    psi_value := psi
    drift_level := drift_level
    drift_detected := decide (psi > 0.25) }

/-- Loop body of `detect_drift_psi` for one feature
(`scripts/detect_drift.py`, lines 177-203).  `psiCalc` stands for the call
`calculate_psi(baseline_data, production_data, feature, bins)` together
with its possible exception (`numpy.histogram` on a degenerate series can
fail): `.error` is the `except` branch, on which the feature is skipped. -/
def psiProcessFeature (psiCalc : String → Except String ℚ)
    (baseline_data production_data : Df) (feature : String) : Option PsiResult :=
  match getCol baseline_data feature, getCol production_data feature with
  | some _, some _ =>
    match psiCalc feature with
    | Except.ok psi => some (psiEntry psi)
    | Except.error _ => none
  | _, _ => none

/-- `detect_drift_psi` (`scripts/detect_drift.py`, lines 157-205). -/
def detect_drift_psi (psiCalc : String → Except String ℚ)
    (baseline_data production_data : Df) (features : List String) :
    List (String × PsiResult) :=
  keyedResults (psiProcessFeature psiCalc baseline_data production_data) features

/-- `high_drift_features` (`scripts/detect_drift.py`, lines 231-234):
KS features with the drift flag set and `|mean_shift_percent|` above the
threshold. -/
def high_drift_features (ks_results : List (String × KSResult))
    (high_drift_threshold : ℚ) : List String :=
  (ks_results.filter (fun x =>
    x.2.drift_detected && decide (|x.2.mean_shift_percent| > high_drift_threshold))).map
    Prod.fst

/-- `psi_significant` (`scripts/detect_drift.py`, lines 237-240):
PSI features with the drift flag set. -/
def psi_significant (psi_results : List (String × PsiResult)) : List String :=
  (psi_results.filter (fun x => x.2.drift_detected)).map Prod.fst

/-- `should_retrain` (`scripts/detect_drift.py`, lines 208-256).  Defaults
in the source: `min_drifted_features = 3`, `high_drift_threshold = 15.0`. -/
def should_retrain (ks_results : List (String × KSResult))
    (psi_results : List (String × PsiResult)) (min_drifted_features : ℕ)
    (high_drift_threshold : ℚ) : Bool × String :=
  let high := high_drift_features ks_results high_drift_threshold
  let psiSig := psi_significant psi_results
  if min_drifted_features ≤ high.length then
    (true, "High drift detected in " ++ toString high.length ++ " features: " ++
      String.intercalate ", " high)
  else if 0 < psiSig.length then
    (true, "Significant PSI drift in " ++ toString psiSig.length ++ " features: " ++
      String.intercalate ", " psiSig)
  else
    (false, "No significant drift detected")

/-- Summary block of the drift report
(`scripts/detect_drift.py`, lines 275-283). -/
structure ReportSummary where
  total_features_analyzed : ℕ
  features_with_drift : ℕ
  drift_percentage : ℚ
  should_retrain_flag : Bool
  retrain_reason : String
  baseline_samples : ℕ
  production_samples : ℕ
deriving DecidableEq

/-- Drift report (`scripts/detect_drift.py`, lines 273-300).  The
timestamp (`pandas.Timestamp.now()`) is passed in as a parameter. -/
structure Report where
  timestamp : String
  summary : ReportSummary
  ks_test_results : List (String × KSResult)
  psi_results : List (String × PsiResult)
  recommendations : List String
deriving DecidableEq

/-- `generate_drift_report` (`scripts/detect_drift.py`, lines 259-300). -/
def generate_drift_report (ks_results : List (String × KSResult))
    (psi_results : List (String × PsiResult)) (should_retrain_flag : Bool)
    (retrain_reason : String) (baseline_samples production_samples : ℕ)
    (timestamp : String) : Report :=
  let total_features := ks_results.length
  let drifted_features := (ks_results.filter (fun r => r.2.drift_detected)).length
  { timestamp := timestamp
    summary :=
      { total_features_analyzed := total_features
        features_with_drift := drifted_features
        drift_percentage :=
          if total_features > 0 then
            (drifted_features : ℚ) / (total_features : ℚ) * 100
          else 0
        should_retrain_flag := should_retrain_flag
        retrain_reason := retrain_reason
        baseline_samples := baseline_samples
        production_samples := production_samples }
    ks_test_results := ks_results
    psi_results := psi_results
    recommendations :=
      (if should_retrain_flag then
        ["🚨 RETRAIN MODEL - Significant drift detected"]
      else
        ["✅ No retraining needed - Model is stable"]) ++
      (if drifted_features > 0 then
        ["📊 Monitor " ++ toString drifted_features ++ " features showing drift"]
      else []) }

/-- Exit-code tail of `main` (`scripts/detect_drift.py`, lines 318-324 and
389-395): a failure while loading either dataset exits with code `1`
(lines 319-324); otherwise the pipeline runs and exits with `1` when the
retrain flag is set and `0` when it is not (lines 390-395).  Data loading
is modelled as the `Except` outcome of the two `load_data` calls; the
library numerics are the same parameters as above. -/
def mainExitCode (loadBaseline loadProduction : Except String Df)
    (ks2samp : List ℚ → List ℚ → ℚ × ℚ) (stdFn : List ℚ → ℚ)
    (psiCalc : Df → Df → String → Except String ℚ)
    (features : List String) (threshold : ℚ) : ℕ :=
  match loadBaseline, loadProduction with
  | Except.ok baseline_df, Except.ok production_df =>
    let ks_results :=
      detect_drift_ks_test ks2samp stdFn baseline_df production_df features threshold
    let psi_results :=
      detect_drift_psi (psiCalc baseline_df production_df) baseline_df production_df
        features
    if (should_retrain ks_results psi_results 3 15).1 then 1 else 0
  | _, _ => 1

/-- Epsilon-corrected probability vector of `calculate_psi`
(`scripts/detect_drift.py`, lines 146-149): histogram counts divided by
the sample count, plus `epsilon = 1e-10` in every bin. -/
noncomputable def pctVector (counts : List ℕ) (n : ℕ) : List ℝ :=
  counts.map (fun (c : ℕ) => (c : ℝ) / (n : ℝ) + 1e-10)

/-- Log-ratio sum of `calculate_psi` (`scripts/detect_drift.py`,
lines 146-154), starting from the two histograms (counts per bin and
total sample counts); the histograms themselves come from
`numpy.histogram` over shared bin edges. -/
noncomputable def calculate_psi (baseline_counts production_counts : List ℕ)
    (baseline_n production_n : ℕ) : ℝ :=
  let baseline_pct := pctVector baseline_counts baseline_n
  let production_pct := pctVector production_counts production_n
  (List.zipWith (fun q pb => (q - pb) * Real.log (q / pb))
    production_pct baseline_pct).sum

/-- The condition under which `detect_drift_ks_test` skips a feature
(`scripts/detect_drift.py`, lines 72-81): the column is absent from either
dataset, or its values are empty after dropping missing cells. -/
def ks_skipped (baseline_data production_data : Df) (feature : String) : Prop :=
  getCol baseline_data feature = none ∨ getCol production_data feature = none ∨
  dropna ((getCol baseline_data feature).getD []) = [] ∨
  dropna ((getCol production_data feature).getD []) = []

instance (b p : Df) (f : String) : Decidable (ks_skipped b p f) := by
  unfold ks_skipped; infer_instance

section Helpers

variable {β : Type}

theorem keyedResults_cons (proc : String → Option β) (f : String)
    (fs : List String) :
    keyedResults proc (f :: fs) =
      match proc f with
      | none => keyedResults proc fs
      | some r => (f, r) :: keyedResults proc fs := by
  cases hp : proc f <;> simp [keyedResults, List.filterMap_cons, hp]

theorem keyedResults_lookup (proc : String → Option β) (fs : List String)
    (k : String) :
    (keyedResults proc fs).lookup k = if k ∈ fs then proc k else none := by
  induction fs with
  | nil => simp [keyedResults]
  | cons f fs ih =>
    rw [keyedResults_cons]
    cases hp : proc f with
    | none =>
      rw [ih]
      by_cases hk : k = f
      · subst hk; simp [hp]
      · simp [List.mem_cons, hk]
    | some r =>
      by_cases hk : k = f
      · subst hk; simp [hp]
      · rw [List.lookup_cons]
        have hbeq : (k == f) = false := by simp [hk]
        simp [hbeq, ih, List.mem_cons, hk]

theorem keyedResults_erase (proc : String → Option β) (fs : List String)
    (k : String) (hk : proc k = none) :
    keyedResults proc fs = keyedResults proc (fs.erase k) := by
  induction fs with
  | nil => rfl
  | cons f fs ih =>
    by_cases hfk : f = k
    · subst hfk
      rw [List.erase_cons_head, keyedResults_cons, hk]
    · rw [List.erase_cons_tail (by simp [hfk]), keyedResults_cons,
        keyedResults_cons]
      cases hp : proc f with
      | none => exact ih
      | some r => rw [ih]

theorem mem_keyedResults {proc : String → Option β} {fs : List String}
    {k : String} {r : β} :
    (k, r) ∈ keyedResults proc fs ↔ k ∈ fs ∧ proc k = some r := by
  simp only [keyedResults, List.mem_filterMap, Option.map_eq_some']
  constructor
  · rintro ⟨a, ha, v, hv, heq⟩
    obtain ⟨rfl, rfl⟩ : a = k ∧ v = r := by
      constructor <;> [exact congrArg Prod.fst heq; exact congrArg Prod.snd heq]
    exact ⟨ha, hv⟩
  · rintro ⟨hk, hr⟩
    exact ⟨k, hk, r, hr, rfl⟩

theorem ksProcessFeature_eq_none (ks2samp : List ℚ → List ℚ → ℚ × ℚ)
    (stdFn : List ℚ → ℚ) (threshold : ℚ) (b p : Df) (f : String)
    (h : ks_skipped b p f) :
    ksProcessFeature ks2samp stdFn threshold b p f = none := by
  unfold ksProcessFeature
  cases hb : getCol b f with
  | none => rfl
  | some bcol =>
    cases hp : getCol p f with
    | none => rfl
    | some pcol =>
      have hempty : dropna bcol = [] ∨ dropna pcol = [] := by
        rcases h with h | h | h | h
        · exact absurd hb (h ▸ by simp)
        · exact absurd hp (h ▸ by simp)
        · left; rw [hb] at h; simpa using h
        · right; rw [hp] at h; simpa using h
      have hcond : (dropna bcol).length = 0 ∨ (dropna pcol).length = 0 := by
        rcases hempty with h | h <;> simp [h]
      simp only [hcond, if_pos]

theorem psi_term_nonneg {pb q : ℝ} (hpb : 0 < pb) (hq : 0 < q) :
    0 ≤ (q - pb) * Real.log (q / pb) := by
  rcases le_total pb q with h | h
  · apply mul_nonneg (by linarith)
    apply Real.log_nonneg
    rw [le_div_iff₀ hpb]; linarith
  · have h1 : q - pb ≤ 0 := by linarith
    have h2 : Real.log (q / pb) ≤ 0 :=
      Real.log_nonpos (by positivity) (by rw [div_le_one hpb]; linarith)
    nlinarith

theorem psi_term_eq_zero {pb q : ℝ} (hpb : 0 < pb) (hq : 0 < q)
    (h : (q - pb) * Real.log (q / pb) = 0) : q = pb := by
  by_contra hne
  rcases lt_or_gt_of_ne hne with hlt | hgt
  · have hlog : Real.log (q / pb) < 0 :=
      Real.log_neg (by positivity) (by rw [div_lt_one hpb]; linarith)
    nlinarith
  · have hlog : 0 < Real.log (q / pb) :=
      Real.log_pos (by rw [lt_div_iff₀ hpb]; linarith)
    nlinarith

theorem psi_sum_nonneg :
    ∀ (pp bp : List ℝ), (∀ x ∈ pp, 0 < x) → (∀ x ∈ bp, 0 < x) →
    0 ≤ (List.zipWith (fun q pb => (q - pb) * Real.log (q / pb)) pp bp).sum := by
  intro pp
  induction pp with
  | nil => intro bp _ _; simp
  | cons q pp ih =>
    intro bp hpp hbp
    cases bp with
    | nil => simp
    | cons pb bp =>
      simp only [List.zipWith_cons_cons, List.sum_cons]
      have h1 := psi_term_nonneg (hbp pb (by simp)) (hpp q (by simp))
      have h2 := ih bp (fun x hx => hpp x (by simp [hx]))
        (fun x hx => hbp x (by simp [hx]))
      linarith

theorem psi_sum_eq_zero :
    ∀ (pp bp : List ℝ), pp.length = bp.length →
    (∀ x ∈ pp, 0 < x) → (∀ x ∈ bp, 0 < x) →
    (List.zipWith (fun q pb => (q - pb) * Real.log (q / pb)) pp bp).sum = 0 →
    pp = bp := by
  intro pp
  induction pp with
  | nil =>
    intro bp hlen _ _ _
    exact (List.length_eq_zero.mp hlen.symm).symm ▸ rfl
  | cons q pp ih =>
    intro bp hlen hpp hbp hsum
    cases bp with
    | nil => simp at hlen
    | cons pb bp =>
      simp only [List.zipWith_cons_cons, List.sum_cons] at hsum
      have h1 := psi_term_nonneg (hbp pb (by simp)) (hpp q (by simp))
      have h2 := psi_sum_nonneg pp bp (fun x hx => hpp x (by simp [hx]))
        (fun x hx => hbp x (by simp [hx]))
      have hhead : (q - pb) * Real.log (q / pb) = 0 := by linarith
      have htail :
          (List.zipWith (fun q pb => (q - pb) * Real.log (q / pb)) pp bp).sum = 0 := by
        linarith
      have hq := psi_term_eq_zero (hbp pb (by simp)) (hpp q (by simp)) hhead
      have hrest := ih bp (by simpa using hlen)
        (fun x hx => hpp x (by simp [hx])) (fun x hx => hbp x (by simp [hx])) htail
      rw [hq, hrest]

theorem pctVector_pos (counts : List ℕ) (n : ℕ) :
    ∀ x ∈ pctVector counts n, 0 < x := by
  intro x hx
  simp only [pctVector, List.mem_map] at hx
  obtain ⟨c, _, rfl⟩ := hx
  have h1 : (0 : ℝ) ≤ (c : ℝ) / (n : ℝ) :=
    div_nonneg (Nat.cast_nonneg c) (Nat.cast_nonneg n)
  have h2 : (0 : ℝ) < 1e-10 := by norm_num
  linarith

theorem pctVector_length (counts : List ℕ) (n : ℕ) :
    (pctVector counts n).length = counts.length := by
  unfold pctVector
  exact List.length_map _ _

theorem high_drift_length (ks : List (String × KSResult)) (t : ℚ) :
    (high_drift_features ks t).length =
      ks.countP (fun x => x.2.drift_detected && decide (|x.2.mean_shift_percent| > t)) := by
  simp [high_drift_features, List.countP_eq_length_filter]

theorem psi_significant_length (psi : List (String × PsiResult)) :
    (psi_significant psi).length = psi.countP (fun x => x.2.drift_detected) := by
  simp [psi_significant, List.countP_eq_length_filter]

end Helpers

/-- C1: the retrain decision returned by `should_retrain` (with the source
defaults `min_drifted_features = 3`, `high_drift_threshold = 15`) is `true`
if and only if at least 3 KS features have the drift flag set with
`|mean_shift_percent| > 15`, or at least 1 PSI feature has the drift flag
set; when neither condition holds the decision is `false`. -/
theorem should_retrain_decision_iff (ks_results : List (String × KSResult))
    (psi_results : List (String × PsiResult)) :
    (should_retrain ks_results psi_results 3 15).1 = true ↔
      (3 ≤ ks_results.countP
          (fun x => x.2.drift_detected && decide (|x.2.mean_shift_percent| > 15)) ∨
        1 ≤ psi_results.countP (fun x => x.2.drift_detected)) := by
  have h1 := high_drift_length ks_results 15
  have h2 := psi_significant_length psi_results
  unfold should_retrain
  dsimp only
  split_ifs with ha hb
  · simp only [true_iff]
    left; rw [← h1]; exact ha
  · simp only [true_iff]
    right; rw [← h2]; omega
  · simp only [Bool.false_eq_true, false_iff, not_or, not_le]
    constructor
    · rw [← h1]; omega
    · rw [← h2]; omega

/-- C10: when the KS count condition holds (at least 3 high-drift KS
features), the reason string of `should_retrain` is the KS high-drift
message naming those features — also when the PSI condition holds at the
same time; the PSI message is produced exactly when the KS count condition
fails and some PSI feature is significant. -/
theorem should_retrain_reason_priority (ks_results : List (String × KSResult))
    (psi_results : List (String × PsiResult)) :
    (3 ≤ (high_drift_features ks_results 15).length →
      (should_retrain ks_results psi_results 3 15).2 =
        "High drift detected in " ++
          toString (high_drift_features ks_results 15).length ++ " features: " ++
          String.intercalate ", " (high_drift_features ks_results 15)) ∧
    ((high_drift_features ks_results 15).length < 3 →
      1 ≤ (psi_significant psi_results).length →
      (should_retrain ks_results psi_results 3 15).2 =
        "Significant PSI drift in " ++
          toString (psi_significant psi_results).length ++ " features: " ++
          String.intercalate ", " (psi_significant psi_results)) := by
  constructor
  · intro h
    unfold should_retrain
    dsimp only
    rw [if_pos h]
  · intro h1 h2
    unfold should_retrain
    dsimp only
    rw [if_neg (by omega), if_pos (by omega)]

/-- Concrete KS result set with three high-drift features, used to
instantiate theorems on concrete inputs. -/
def ksHigh3 : List (String × KSResult) :=
  [("age", ⟨"KS-test", true, 0.01, 0.5, 100, 130, 30, 10, 10, 50, 50⟩),
   ("bmi", ⟨"KS-test", true, 0.01, 0.5, 100, 130, 30, 10, 10, 50, 50⟩),
   ("bp", ⟨"KS-test", true, 0.01, 0.5, 100, 130, 30, 10, 10, 50, 50⟩)]

/-- Concrete PSI result set with one significant feature. -/
def psiSig1 : List (String × PsiResult) :=
  [("glucose", ⟨"PSI", 0.3, "significant_drift", true⟩)]

theorem ksHigh3_count : 3 ≤ (high_drift_features ksHigh3 15).length := by
  norm_num [high_drift_features, ksHigh3, List.filter]

theorem psiSig1_count : 1 ≤ (psi_significant psiSig1).length := by
  norm_num [psi_significant, psiSig1, List.filter]

/-- Witness for C10: on a concrete pair of result sets where both the KS
count condition and the PSI condition hold, the reason is the KS
high-drift message. -/
theorem should_retrain_reason_priority_witness :
    (should_retrain ksHigh3 psiSig1 3 15).2 =
      "High drift detected in " ++ toString (high_drift_features ksHigh3 15).length ++
        " features: " ++ String.intercalate ", " (high_drift_features ksHigh3 15) :=
  (should_retrain_reason_priority ksHigh3 psiSig1).1 ksHigh3_count

/-- C5: in the report produced by `generate_drift_report`,
`drift_percentage` is `0` when no features were analyzed and otherwise
equals the drifted-feature count divided by the total count times 100; the
quotient is formed only under the positivity guard of the source. -/
theorem drift_percentage_no_div_by_zero (ks_results : List (String × KSResult))
    (psi_results : List (String × PsiResult)) (flag : Bool) (reason : String)
    (baseline_samples production_samples : ℕ) (timestamp : String) :
    (generate_drift_report ks_results psi_results flag reason baseline_samples
        production_samples timestamp).summary.drift_percentage =
      if ks_results.length = 0 then 0
      else ((ks_results.filter (fun r => r.2.drift_detected)).length : ℚ) /
        (ks_results.length : ℚ) * 100 := by
  unfold generate_drift_report
  dsimp only
  by_cases h : ks_results.length = 0
  · rw [if_pos h, if_neg (by omega)]
  · rw [if_neg h, if_pos (by omega)]

/-- C9: the exit code of the `main` pipeline is `0` exactly when both
datasets load successfully and the retrain decision is `false`; it is `1`
exactly when a dataset fails to load or the retrain decision is `true`;
no other exit code is produced. -/
theorem main_exit_codes (loadBaseline loadProduction : Except String Df)
    (ks2samp : List ℚ → List ℚ → ℚ × ℚ) (stdFn : List ℚ → ℚ)
    (psiCalc : Df → Df → String → Except String ℚ)
    (features : List String) (threshold : ℚ) :
    (mainExitCode loadBaseline loadProduction ks2samp stdFn psiCalc features
        threshold = 0 ∨
      mainExitCode loadBaseline loadProduction ks2samp stdFn psiCalc features
        threshold = 1) ∧
    (mainExitCode loadBaseline loadProduction ks2samp stdFn psiCalc features
        threshold = 0 ↔
      ∃ b p, loadBaseline = Except.ok b ∧ loadProduction = Except.ok p ∧
        (should_retrain (detect_drift_ks_test ks2samp stdFn b p features threshold)
          (detect_drift_psi (psiCalc b p) b p features) 3 15).1 = false) ∧
    (mainExitCode loadBaseline loadProduction ks2samp stdFn psiCalc features
        threshold = 1 ↔
      (∃ b p, loadBaseline = Except.ok b ∧ loadProduction = Except.ok p ∧
        (should_retrain (detect_drift_ks_test ks2samp stdFn b p features threshold)
          (detect_drift_psi (psiCalc b p) b p features) 3 15).1 = true) ∨
      (∀ b, loadBaseline ≠ Except.ok b) ∨ (∀ p, loadProduction ≠ Except.ok p)) := by
  cases loadBaseline with
  | error e => simp [mainExitCode]
  | ok b =>
    cases loadProduction with
    | error e => simp [mainExitCode]
    | ok p =>
      by_cases hf :
        (should_retrain (detect_drift_ks_test ks2samp stdFn b p features threshold)
          (detect_drift_psi (psiCalc b p) b p features) 3 15).1
      · simp [mainExitCode, hf]
      · simp [mainExitCode, hf]

theorem psiEntry_level (v : ℚ) :
    ((psiEntry v).drift_level = "no_drift" ↔ v < 0.1) ∧
    ((psiEntry v).drift_level = "moderate_drift" ↔ 0.1 ≤ v ∧ v < 0.25) ∧
    ((psiEntry v).drift_level = "significant_drift" ↔ 0.25 ≤ v) := by
  have hne1 : ("no_drift" : String) ≠ "moderate_drift" := by decide
  have hne2 : ("no_drift" : String) ≠ "significant_drift" := by decide
  have hne3 : ("moderate_drift" : String) ≠ "no_drift" := by decide
  have hne4 : ("moderate_drift" : String) ≠ "significant_drift" := by decide
  have hne5 : ("significant_drift" : String) ≠ "no_drift" := by decide
  have hne6 : ("significant_drift" : String) ≠ "moderate_drift" := by decide
  unfold psiEntry
  dsimp only
  split_ifs with h1 h2
  · refine ⟨by simp [h1], ?_, ?_⟩
    · simp only [hne1, false_iff, not_and, not_lt]
      intro hle; linarith
    · simp only [hne2, false_iff, not_le]
      linarith
  · refine ⟨?_, by simp [h2]; linarith, ?_⟩
    · simp only [hne3, false_iff, not_lt]
      linarith
    · simp only [hne4, false_iff, not_le]
      linarith
  · refine ⟨?_, ?_, by simp; linarith⟩
    · simp only [hne5, false_iff, not_lt]
      linarith
    · simp only [hne6, false_iff, not_and, not_lt]
      intro hle; linarith

theorem psiProcessFeature_eq_of_cols {psiCalc : String → Except String ℚ}
    {b p : Df} {f : String} {bcol pcol : List (Option ℚ)} {v : ℚ}
    (hb : getCol b f = some bcol) (hp : getCol p f = some pcol)
    (hv : psiCalc f = Except.ok v) :
    psiProcessFeature psiCalc b p f = some (psiEntry v) := by
  unfold psiProcessFeature
  rw [hb, hp, hv]

/-- C6: the PSI drift level assigned to a feature by `detect_drift_psi` is
`no_drift` exactly when its PSI value is below `0.1`, `moderate_drift`
exactly when the value lies in `[0.1, 0.25)`, and `significant_drift`
exactly when the value is at least `0.25`. -/
theorem psi_drift_level_classification (psiCalc : String → Except String ℚ)
    (b p : Df) (fs : List String) (f : String) (v : ℚ) (r : PsiResult)
    (hmem : (f, r) ∈ detect_drift_psi psiCalc b p fs)
    (hv : psiCalc f = Except.ok v) :
    r.psi_value = v ∧
    (r.drift_level = "no_drift" ↔ v < 0.1) ∧
    (r.drift_level = "moderate_drift" ↔ 0.1 ≤ v ∧ v < 0.25) ∧
    (r.drift_level = "significant_drift" ↔ 0.25 ≤ v) := by
  obtain ⟨-, hproc⟩ := mem_keyedResults.mp hmem
  unfold psiProcessFeature at hproc
  cases hb : getCol b f with
  | none => rw [hb] at hproc; exact absurd hproc (by simp)
  | some bcol =>
    cases hp : getCol p f with
    | none => rw [hb, hp] at hproc; exact absurd hproc (by simp)
    | some pcol =>
      rw [hb, hp, hv] at hproc
      have hr : r = psiEntry v := by
        injection hproc with h
        exact h.symm
      subst hr
      exact ⟨rfl, psiEntry_level v⟩

/-- A one-column dataset used to instantiate the PSI theorems. -/
def dfX : Df := [("x", [some 1])]

/-- Witness for C6: a feature whose PSI value is `0.17` is classified as
`moderate_drift` and not as the other two levels. -/
theorem psi_drift_level_classification_witness :
    (("x", psiEntry 0.17) ∈
      detect_drift_psi (fun _ => Except.ok 0.17) dfX dfX ["x"]) ∧
    ((fun (_ : String) => Except.ok (ε := String) (0.17 : ℚ)) "x" = Except.ok 0.17) ∧
    ((psiEntry 0.17).psi_value = 0.17 ∧
      ((psiEntry 0.17).drift_level = "no_drift" ↔ (0.17 : ℚ) < 0.1) ∧
      ((psiEntry 0.17).drift_level = "moderate_drift" ↔
        (0.1 : ℚ) ≤ 0.17 ∧ (0.17 : ℚ) < 0.25) ∧
      ((psiEntry 0.17).drift_level = "significant_drift" ↔ (0.25 : ℚ) ≤ 0.17)) := by
  have hcol : getCol dfX "x" = some [some 1] := by simp [getCol, dfX]
  have hproc : psiProcessFeature (fun _ => Except.ok 0.17) dfX dfX "x" =
      some (psiEntry 0.17) :=
    psiProcessFeature_eq_of_cols hcol hcol rfl
  have hmem : ("x", psiEntry 0.17) ∈
      detect_drift_psi (fun _ => Except.ok 0.17) dfX dfX ["x"] :=
    mem_keyedResults.mpr ⟨by simp, hproc⟩
  exact ⟨hmem, rfl,
    psi_drift_level_classification (fun _ => Except.ok 0.17) dfX dfX ["x"] "x" 0.17
      (psiEntry 0.17) hmem rfl⟩

/-- Counterexample to C2 as stated: on a run where the computed PSI value
of feature `x` is exactly `0.25` (so `PSI ≥ 0.25` holds), the produced
result has `drift_detected = false` — the source sets the flag by the
strict comparison `psi > 0.25` — and with no qualifying KS feature the
retrain decision is `false`, not `true`.  (The level is nevertheless
`significant_drift`.) -/
theorem psi_at_quarter_no_drift_flag :
    (0.25 : ℚ) ≥ 0.25 ∧
    (detect_drift_psi (fun _ => Except.ok 0.25) dfX dfX ["x"]).lookup "x" =
      some (psiEntry 0.25) ∧
    (psiEntry 0.25).psi_value = 0.25 ∧
    (psiEntry 0.25).drift_detected = false ∧
    (psiEntry 0.25).drift_level = "significant_drift" ∧
    (should_retrain [] (detect_drift_psi (fun _ => Except.ok 0.25) dfX dfX ["x"])
        3 15).1 = false := by
  have hcol : getCol dfX "x" = some [some 1] := by simp [getCol, dfX]
  have hproc : psiProcessFeature (fun _ => Except.ok 0.25) dfX dfX "x" =
      some (psiEntry 0.25) :=
    psiProcessFeature_eq_of_cols hcol hcol rfl
  have hflag : (psiEntry 0.25).drift_detected = false := by
    unfold psiEntry
    dsimp only
    rw [decide_eq_false_iff_not]
    norm_num
  have hres : detect_drift_psi (fun _ => Except.ok 0.25) dfX dfX ["x"] =
      [("x", psiEntry 0.25)] := by
    unfold detect_drift_psi
    rw [keyedResults_cons, hproc]
    rfl
  refine ⟨le_refl _, ?_, rfl, hflag, ?_, ?_⟩
  · rw [hres, List.lookup_cons_self]
  · unfold psiEntry
    dsimp only
    rw [if_neg (by norm_num), if_neg (by norm_num)]
  · rw [hres]
    unfold should_retrain
    dsimp only
    rw [if_neg, if_neg]
    · simp [psi_significant, List.filter, hflag]
    · simp [high_drift_features]

/-- C2 amended: for every feature whose computed PSI value is strictly
greater than `0.25`, the PSI result has `drift_detected = true` and the
retrain decision is `true` for every KS result set, in particular when
zero KS features qualify as high drift.  (At PSI exactly `0.25` the flag
is `false`, since the source compares strictly.) -/
theorem psi_above_quarter_triggers_retrain (psiCalc : String → Except String ℚ)
    (b p : Df) (fs : List String) (f : String) (v : ℚ)
    (ks_results : List (String × KSResult)) (bcol pcol : List (Option ℚ))
    (hb : getCol b f = some bcol) (hp : getCol p f = some pcol)
    (hf : f ∈ fs) (hv : psiCalc f = Except.ok v) (hq : 0.25 < v) :
    (detect_drift_psi psiCalc b p fs).lookup f = some (psiEntry v) ∧
    (psiEntry v).drift_detected = true ∧
    (should_retrain ks_results (detect_drift_psi psiCalc b p fs) 3 15).1 = true := by
  have hproc : psiProcessFeature psiCalc b p f = some (psiEntry v) :=
    psiProcessFeature_eq_of_cols hb hp hv
  have hlookup : (detect_drift_psi psiCalc b p fs).lookup f = some (psiEntry v) := by
    unfold detect_drift_psi
    rw [keyedResults_lookup, if_pos hf, hproc]
  have hflag : (psiEntry v).drift_detected = true := by
    unfold psiEntry
    dsimp only
    exact decide_eq_true hq
  have hmem : (f, psiEntry v) ∈ detect_drift_psi psiCalc b p fs :=
    mem_keyedResults.mpr ⟨hf, hproc⟩
  have hsig : f ∈ psi_significant (detect_drift_psi psiCalc b p fs) := by
    unfold psi_significant
    exact List.mem_map.mpr
      ⟨(f, psiEntry v), List.mem_filter.mpr ⟨hmem, hflag⟩, rfl⟩
  have hpos : 0 < (psi_significant (detect_drift_psi psiCalc b p fs)).length :=
    List.length_pos.mpr (List.ne_nil_of_mem hsig)
  refine ⟨hlookup, hflag, ?_⟩
  unfold should_retrain
  dsimp only
  split_ifs with h1
  · rfl
  · rfl

/-- Witness for the amended C2: PSI value `0.3` on feature `x` sets the
drift flag and forces the retrain decision with an empty KS result set. -/
theorem psi_above_quarter_triggers_retrain_witness :
    getCol dfX "x" = some [some 1] ∧ ("x" ∈ ["x"]) ∧
    (fun (_ : String) => Except.ok (ε := String) (0.3 : ℚ)) "x" = Except.ok 0.3 ∧
    (0.25 : ℚ) < 0.3 ∧
    ((detect_drift_psi (fun _ => Except.ok 0.3) dfX dfX ["x"]).lookup "x" =
      some (psiEntry 0.3) ∧
    (psiEntry 0.3).drift_detected = true ∧
    (should_retrain [] (detect_drift_psi (fun _ => Except.ok 0.3) dfX dfX ["x"])
        3 15).1 = true) := by
  have hcol : getCol dfX "x" = some [some 1] := by simp [getCol, dfX]
  exact ⟨hcol, by simp, rfl, by norm_num,
    psi_above_quarter_triggers_retrain (fun _ => Except.ok 0.3) dfX dfX ["x"] "x"
      0.3 [] [some 1] [some 1] hcol hcol (by simp) rfl (by norm_num)⟩

/-- C3: for every feature analyzed by `detect_drift_ks_test`, the stored
means are the means of the non-missing values, and `mean_shift_percent`
is exactly `0` when the baseline mean is exactly `0` — regardless of the
production mean — and otherwise equals
`(production_mean - baseline_mean) / baseline_mean * 100`. -/
theorem ks_mean_shift_policy (ks2samp : List ℚ → List ℚ → ℚ × ℚ)
    (stdFn : List ℚ → ℚ) (baseline_data production_data : Df) (threshold : ℚ)
    (fs : List String) (f : String) (r : KSResult)
    (bcol pcol : List (Option ℚ))
    (hmem : (f, r) ∈
      detect_drift_ks_test ks2samp stdFn baseline_data production_data fs threshold)
    (hb : getCol baseline_data f = some bcol)
    (hp : getCol production_data f = some pcol) :
    r.baseline_mean = seriesMean (dropna bcol) ∧
    r.production_mean = seriesMean (dropna pcol) ∧
    (r.baseline_mean = 0 → r.mean_shift_percent = 0) ∧
    (r.baseline_mean ≠ 0 →
      r.mean_shift_percent =
        (r.production_mean - r.baseline_mean) / r.baseline_mean * 100) := by
  obtain ⟨-, hproc⟩ := mem_keyedResults.mp hmem
  unfold ksProcessFeature at hproc
  rw [hb, hp] at hproc
  dsimp only at hproc
  by_cases hlen : (dropna bcol).length = 0 ∨ (dropna pcol).length = 0
  · rw [if_pos hlen] at hproc
    exact absurd hproc (by simp)
  · rw [if_neg hlen] at hproc
    injection hproc with h
    subst h
    refine ⟨rfl, rfl, ?_, ?_⟩
    · intro h0
      dsimp at h0 ⊢
      rw [if_neg]
      simpa using h0
    · intro hne
      dsimp at hne ⊢
      rw [if_pos]
      simpa using hne

/-- Witness for C3: one feature present in both datasets, baseline values
`[2]`, production values `[3]`, giving a 50% mean shift. -/
theorem ks_mean_shift_policy_witness :
    (("x", (⟨"KS-test", false, 0.2, 0.5, 2, 3, 50, 0, 0, 1, 1⟩ : KSResult)) ∈
      detect_drift_ks_test (fun _ _ => (0.5, 0.2)) (fun _ => 0)
        [("x", [some 2])] [("x", [some 3])] ["x"] 0.05) ∧
    getCol [("x", [some 2])] "x" = some [some 2] ∧
    getCol [("x", [some 3])] "x" = some [some 3] ∧
    ((2 : ℚ) = seriesMean (dropna [some 2]) ∧
      (3 : ℚ) = seriesMean (dropna [some 3]) ∧
      ((2 : ℚ) = 0 → (50 : ℚ) = 0) ∧
      ((2 : ℚ) ≠ 0 → (50 : ℚ) = ((3 : ℚ) - 2) / 2 * 100)) := by
  have hb : getCol [("x", [some 2])] "x" = some [some 2] := by simp [getCol]
  have hp : getCol [("x", [some 3])] "x" = some [some 3] := by simp [getCol]
  have hdb : dropna [some (2 : ℚ)] = [2] := rfl
  have hdp : dropna [some (3 : ℚ)] = [3] := rfl
  have hmb : seriesMean [(2 : ℚ)] = 2 := by norm_num [seriesMean]
  have hmp : seriesMean [(3 : ℚ)] = 3 := by norm_num [seriesMean]
  have hproc : ksProcessFeature (fun _ _ => (0.5, 0.2)) (fun _ => 0) 0.05
      [("x", [some 2])] [("x", [some 3])] "x" =
      some ⟨"KS-test", false, 0.2, 0.5, 2, 3, 50, 0, 0, 1, 1⟩ := by
    unfold ksProcessFeature
    rw [hb, hp]
    dsimp only
    rw [hdb, hdp, if_neg (by norm_num), hmb, hmp]
    have hdd : decide ((0.2 : ℚ) < 0.05) = false := by norm_num
    have h50 : ((3 : ℚ) - 2) / 2 * 100 = 50 := by norm_num
    rw [if_pos (show (2 : ℚ) ≠ 0 by norm_num), h50, hdd]
    rfl
  have hmem : ("x", (⟨"KS-test", false, 0.2, 0.5, 2, 3, 50, 0, 0, 1, 1⟩ : KSResult)) ∈
      detect_drift_ks_test (fun _ _ => (0.5, 0.2)) (fun _ => 0)
        [("x", [some 2])] [("x", [some 3])] ["x"] 0.05 :=
    mem_keyedResults.mpr ⟨by simp, hproc⟩
  exact ⟨hmem, hb, hp,
    ks_mean_shift_policy (fun _ _ => (0.5, 0.2)) (fun _ => 0)
      [("x", [some 2])] [("x", [some 3])] 0.05 ["x"] "x"
      ⟨"KS-test", false, 0.2, 0.5, 2, 3, 50, 0, 0, 1, 1⟩ [some 2] [some 3]
      hmem hb hp⟩

/-- C7: a feature that is absent from the columns of either dataset, or whose
values are empty after dropping missing cells, gets no entry in the KS
results; the results are the same as if the feature were not in the list,
and every feature in the list is looked up independently (processing
continues past a skipped feature). -/
theorem ks_skipped_feature_dropped (ks2samp : List ℚ → List ℚ → ℚ × ℚ)
    (stdFn : List ℚ → ℚ) (baseline_data production_data : Df) (threshold : ℚ)
    (fs : List String) (f : String)
    (h : ks_skipped baseline_data production_data f) :
    (detect_drift_ks_test ks2samp stdFn baseline_data production_data fs
        threshold).lookup f = none ∧
    detect_drift_ks_test ks2samp stdFn baseline_data production_data fs threshold =
      detect_drift_ks_test ks2samp stdFn baseline_data production_data
        (fs.erase f) threshold ∧
    ∀ g, (detect_drift_ks_test ks2samp stdFn baseline_data production_data fs
        threshold).lookup g =
      if g ∈ fs then
        ksProcessFeature ks2samp stdFn threshold baseline_data production_data g
      else none := by
  have hnone := ksProcessFeature_eq_none ks2samp stdFn threshold
    baseline_data production_data f h
  refine ⟨?_, ?_, ?_⟩
  · unfold detect_drift_ks_test
    rw [keyedResults_lookup, hnone]
    simp
  · exact keyedResults_erase _ _ _ hnone
  · intro g
    unfold detect_drift_ks_test
    exact keyedResults_lookup _ _ g

/-- Witness for C7: feature `y` is present in the baseline but absent from
the production dataset, so it is skipped while feature `x` is processed. -/
theorem ks_skipped_feature_dropped_witness :
    ks_skipped [("x", [some 2]), ("y", [some 1])] [("x", [some 3])] "y" ∧
    ((detect_drift_ks_test (fun _ _ => (0.5, 0.2)) (fun _ => 0)
        [("x", [some 2]), ("y", [some 1])] [("x", [some 3])] ["x", "y"]
        0.05).lookup "y" = none ∧
    detect_drift_ks_test (fun _ _ => (0.5, 0.2)) (fun _ => 0)
        [("x", [some 2]), ("y", [some 1])] [("x", [some 3])] ["x", "y"] 0.05 =
      detect_drift_ks_test (fun _ _ => (0.5, 0.2)) (fun _ => 0)
        [("x", [some 2]), ("y", [some 1])] [("x", [some 3])]
        (["x", "y"].erase "y") 0.05 ∧
    ∀ g, (detect_drift_ks_test (fun _ _ => (0.5, 0.2)) (fun _ => 0)
        [("x", [some 2]), ("y", [some 1])] [("x", [some 3])] ["x", "y"]
        0.05).lookup g =
      if g ∈ ["x", "y"] then
        ksProcessFeature (fun _ _ => (0.5, 0.2)) (fun _ => 0) 0.05
          [("x", [some 2]), ("y", [some 1])] [("x", [some 3])] g
      else none) := by
  have hsk : ks_skipped [("x", [some 2]), ("y", [some 1])] [("x", [some 3])] "y" := by
    right; left
    simp [getCol]
  exact ⟨hsk,
    ks_skipped_feature_dropped (fun _ _ => (0.5, 0.2)) (fun _ => 0)
      [("x", [some 2]), ("y", [some 1])] [("x", [some 3])] 0.05 ["x", "y"] "y" hsk⟩

theorem psiProcessFeature_eq_none_of_error {psiCalc : String → Except String ℚ}
    {b p : Df} {f : String} {e : String} (herr : psiCalc f = Except.error e) :
    psiProcessFeature psiCalc b p f = none := by
  unfold psiProcessFeature
  cases getCol b f with
  | none => rfl
  | some bcol =>
    cases getCol p f with
    | none => rfl
    | some pcol => rw [herr]

/-- C8: `detect_drift_psi` is a total function of its inputs (the
embedding returns a result list for every feature list), and when the PSI
computation for one feature fails — the `except` branch of the source —
that feature gets no entry while the result list is the same as if the
feature were not in the list; every feature in the list is looked up
independently, so a per-feature failure never aborts the batch. -/
theorem psi_error_feature_skipped (psiCalc : String → Except String ℚ)
    (baseline_data production_data : Df) (fs : List String) (f : String)
    (e : String) (herr : psiCalc f = Except.error e) :
    (detect_drift_psi psiCalc baseline_data production_data fs).lookup f = none ∧
    detect_drift_psi psiCalc baseline_data production_data fs =
      detect_drift_psi psiCalc baseline_data production_data (fs.erase f) ∧
    ∀ g, (detect_drift_psi psiCalc baseline_data production_data fs).lookup g =
      if g ∈ fs then psiProcessFeature psiCalc baseline_data production_data g
      else none := by
  have hnone : psiProcessFeature psiCalc baseline_data production_data f = none :=
    psiProcessFeature_eq_none_of_error herr
  refine ⟨?_, ?_, ?_⟩
  · unfold detect_drift_psi
    rw [keyedResults_lookup, hnone]
    simp
  · exact keyedResults_erase _ _ _ hnone
  · intro g
    unfold detect_drift_psi
    exact keyedResults_lookup _ _ g

/-- Witness for C8: the PSI computation fails on feature `x` (degenerate
histogram) and succeeds on feature `y`; `x` is skipped, `y` is kept. -/
theorem psi_error_feature_skipped_witness :
    (fun (g : String) => if g = "x" then (Except.error "degenerate histogram" :
        Except String ℚ) else Except.ok 0.3) "x" = Except.error "degenerate histogram" ∧
    ((detect_drift_psi (fun g => if g = "x" then Except.error "degenerate histogram"
        else Except.ok 0.3) [("x", [some 1]), ("y", [some 1])]
        [("x", [some 1]), ("y", [some 1])] ["x", "y"]).lookup "x" = none ∧
    detect_drift_psi (fun g => if g = "x" then Except.error "degenerate histogram"
        else Except.ok 0.3) [("x", [some 1]), ("y", [some 1])]
        [("x", [some 1]), ("y", [some 1])] ["x", "y"] =
      detect_drift_psi (fun g => if g = "x" then Except.error "degenerate histogram"
        else Except.ok 0.3) [("x", [some 1]), ("y", [some 1])]
        [("x", [some 1]), ("y", [some 1])] (["x", "y"].erase "x") ∧
    ∀ g, (detect_drift_psi (fun g => if g = "x" then
          Except.error "degenerate histogram" else Except.ok 0.3)
        [("x", [some 1]), ("y", [some 1])] [("x", [some 1]), ("y", [some 1])]
        ["x", "y"]).lookup g =
      if g ∈ ["x", "y"] then
        psiProcessFeature (fun g => if g = "x" then
            Except.error "degenerate histogram" else Except.ok 0.3)
          [("x", [some 1]), ("y", [some 1])] [("x", [some 1]), ("y", [some 1])] g
      else none) := by
  refine ⟨by simp, ?_⟩
  exact psi_error_feature_skipped
    (fun g => if g = "x" then Except.error "degenerate histogram" else Except.ok 0.3)
    [("x", [some 1]), ("y", [some 1])] [("x", [some 1]), ("y", [some 1])]
    ["x", "y"] "x" "degenerate histogram" (by simp)

/-- C4: for every pair of baseline and production histograms with positive
sample counts (and matching bin counts, as produced by shared bin edges),
the PSI value of `calculate_psi` is non-negative, and it is `0` only when
the epsilon-corrected baseline and production probability vectors agree in
every bin. -/
theorem calculate_psi_nonneg (baseline_counts production_counts : List ℕ)
    (baseline_n production_n : ℕ) (hbn : 0 < baseline_n) (hpn : 0 < production_n)
    (hlen : production_counts.length = baseline_counts.length) :
    0 ≤ calculate_psi baseline_counts production_counts baseline_n production_n ∧
    (calculate_psi baseline_counts production_counts baseline_n production_n = 0 →
      pctVector production_counts production_n =
        pctVector baseline_counts baseline_n) := by
  constructor
  · exact psi_sum_nonneg _ _ (pctVector_pos _ _) (pctVector_pos _ _)
  · intro h
    exact psi_sum_eq_zero _ _
      (by rw [pctVector_length, pctVector_length, hlen])
      (pctVector_pos _ _) (pctVector_pos _ _) h

/-- Witness for C4: identical one-bin histograms with one sample each. -/
theorem calculate_psi_nonneg_witness :
    0 < 1 ∧ 0 < 1 ∧ ([1] : List ℕ).length = ([1] : List ℕ).length ∧
    (0 ≤ calculate_psi [1] [1] 1 1 ∧
      (calculate_psi [1] [1] 1 1 = 0 →
        pctVector [1] 1 = pctVector [1] 1)) :=
  ⟨Nat.one_pos, Nat.one_pos, rfl,
    calculate_psi_nonneg [1] [1] 1 1 Nat.one_pos Nat.one_pos rfl⟩

end DriftDetect
